import Mathlib

/-!
# Verification of the WebPulse360 page-audit engine (`app.py`)

Shallow embedding of the scoring engine: URL normalization, the four
analyzers (security, performance, SEO, accessibility) and the aggregator
(weighted overall score, letter grade, critical/minor issue counts).

Modelling conventions:
* Python `int`/`float` arithmetic is modelled in `ℚ` (all values involved
  are exact decimals, so `ℚ` computes the same results).
* `requests` response objects are modelled by the `Resp` structure; header
  lookup is case-insensitive, as in `requests.structures.CaseInsensitiveDict`.
* BeautifulSoup parsing is treated as an abstract input: the `Doc` structure
  holds exactly the facts the analyzers extract from the markup
  (title string, meta description, h1 count, og tags, image alt attributes,
  link texts, html lang attribute).
* Calls to `random.uniform` / `random.random` are modelled by explicit draw
  parameters (`Draws`), and the two SEO network probes by their observed
  outcome (`Option Nat`: `none` = the probe raised, `some c` = status code).
* Python `round` is banker's rounding, embedded as `pyRound`.
-/

namespace WebPulse

/-- Python's `round` on an exact value: round half to even. -/
def pyRound (q : ℚ) : ℤ :=
  let f : ℤ := ⌊q⌋
  let r : ℚ := q - f
  if r < 1/2 then f
  else if 1/2 < r then f + 1
  else if f % 2 = 0 then f else f + 1

/-- Python's `round(x, 2)`. -/
def round2 (q : ℚ) : ℚ := (pyRound (q * 100) : ℚ) / 100

/-- Python's `round(x, 3)`. -/
def round3 (q : ℚ) : ℚ := (pyRound (q * 1000) : ℚ) / 1000

/-- Python's `needle in hay` on strings (substring test). -/
def strContains (hay needle : String) : Bool :=
  decide (List.IsInfix needle.data hay.data)

/-- ASCII whitespace, as stripped by Python's `str.strip()`. -/
def isSpaceChar (c : Char) : Bool :=
  c == ' ' || c == '\t' || c == '\n' || c == '\x0d' || c == '\x0b' || c == '\x0c'

/-- Python's `str.strip()`: drop leading and trailing whitespace. -/
def pyStrip (s : String) : String :=
  String.mk (((s.data.dropWhile isSpaceChar).reverse.dropWhile isSpaceChar).reverse)

/-- Lower-case an ASCII letter (header names and cookie attributes are
ASCII, so this matches Python's `str.lower()` on them). -/
def lowerChar (c : Char) : Char :=
  if 'A' ≤ c ∧ c ≤ 'Z' then Char.ofNat (c.toNat + 32) else c

/-- Python's `str.lower()` (ASCII). -/
def pyLower (s : String) : String := String.mk (s.data.map lowerChar)

/-- Python's `str.startswith`. -/
def pyStartswith (s pre : String) : Bool := pre.data.isPrefixOf s.data

/-- Decimal rendering of a rational with at most two fractional digits,
matching Python's `str`/f-string on such floats (`7.0` → `"7.0"`,
`7.25` → `"7.25"`).  Only applied to values rounded to two decimals. -/
def qToStr (q : ℚ) : String :=
  let neg := q < 0
  let a := |q|
  let ip := (⌊a⌋).toNat
  let fr := a - ip
  let c1 := (⌊fr * 10⌋).toNat
  let c2 := (⌊(fr * 10 - c1) * 10⌋).toNat
  let frac := if c2 = 0 then toString c1 else toString c1 ++ toString c2
  (if neg then "-" else "") ++ toString ip ++ "." ++ frac

/-- `normalize_url` (app.py:19-23). -/
def normalize_url (url : String) : String :=
  let u := pyStrip url
  if pyStartswith u "http://" || pyStartswith u "https://" then u
  else "https://" ++ u

/-- `letter_grade` (app.py:58-64). -/
def letter_grade (score : ℤ) : String :=
  if score ≥ 90 then "A+"
  else if score ≥ 80 then "A"
  else if score ≥ 70 then "B"
  else if score ≥ 60 then "C"
  else if score ≥ 50 then "D"
  else "F"

/-- `WEIGHTS` (app.py:17). -/
def WEIGHTS_security : ℚ := 0.35
def WEIGHTS_performance : ℚ := 0.30
def WEIGHTS_seo : ℚ := 0.25
def WEIGHTS_accessibility : ℚ := 0.10

/-- `SECURITY_HEADERS` (app.py:66-73). -/
def SECURITY_HEADERS : List String :=
  ["Content-Security-Policy",
   "Strict-Transport-Security",
   "X-Content-Type-Options",
   "X-Frame-Options",
   "Referrer-Policy",
   "Permissions-Policy"]

/-- Response headers: name/value pairs with case-insensitive lookup. -/
abbrev Headers := List (String × String)

/-- Case-insensitive header lookup (`resp.headers.get(name)` /
`name in resp.headers` in `requests`). -/
def headerGet (hs : Headers) (name : String) : Option String :=
  (hs.find? (fun p => pyLower p.1 == pyLower name)).map (fun p => p.2)

/-- `name in resp.headers`. -/
def hasHeader (hs : Headers) (name : String) : Bool :=
  (headerGet hs name).isSome

/-- Facts the analyzers extract from the parsed markup (BeautifulSoup). -/
structure Doc where
  /-- `soup.title.string` when the title tag exists and has a string. -/
  title : Option String
  /-- `content` attribute of the first `meta name=description` tag,
  `none` when the tag or the attribute is absent. -/
  metaDesc : Option String
  /-- number of `h1` elements. -/
  h1Count : Nat
  /-- `meta` tags whose `property` matches `^og:`: (property, content). -/
  ogTags : List (String × Option String)
  /-- `alt` attribute of each `img` element (`none` = attribute absent). -/
  imgAlts : List (Option String)
  /-- `a.string` of each `a` element (`none` = no string). -/
  linkTexts : List (Option String)
  /-- `lang` attribute of the root `html` element; `none` when the
  attribute or the root element itself is absent. -/
  htmlLang : Option String
  deriving DecidableEq, Repr

/-- A fetched response (`requests.Response`). -/
structure Resp where
  headers : Headers
  /-- `len(resp.content)` in bytes. -/
  contentLen : Nat
  statusCode : Nat
  /-- parse of `resp.text`; `none` when the text is empty (`not html`). -/
  doc : Option Doc
  deriving DecidableEq, Repr

/-- Python truthiness of an optional string: `None` and `""` are falsy. -/
def truthy : Option String → Bool
  | none => false
  | some s => s ≠ ""

/-! ## Security analyzer (app.py:75-108) -/

def missingHeaders (r : Resp) : List String :=
  SECURITY_HEADERS.filter (fun h => !hasHeader r.headers h)

/-- Deduction from the `Set-Cookie` checks (app.py:89-98). -/
def cookiePenalty (r : Resp) : ℚ :=
  match headerGet r.headers "Set-Cookie" with
  | none => 0
  | some c =>
    if c ≠ "" then
      (if strContains (pyLower c) "secure" then 0 else 10) +
      (if strContains (pyLower c) "httponly" then 0 else 10)
    else 0

/-- Issues from the `Set-Cookie` checks (app.py:89-98). -/
def cookieIssues (r : Resp) : List String :=
  match headerGet r.headers "Set-Cookie" with
  | none => []
  | some c =>
    if c ≠ "" then
      (if strContains (pyLower c) "secure" then [] else ["Cookies missing Secure flag."]) ++
      (if strContains (pyLower c) "httponly" then [] else ["Cookies missing HttpOnly flag."])
    else []

/-- The running `score` variable of `analyze_security` just before
`max(0, score)`: starts at 100, −40 for invalid TLS, −10 per missing
header, −10/−10 for the cookie flags; forced to 0 when there is no
response. -/
def sec_raw_score (resp : Option Resp) (ssl_ok : Bool) : ℚ :=
  match resp with
  | none => 0
  | some r =>
    100 - (if ssl_ok then 0 else 40)
        - (missingHeaders r).length * 10
        - cookiePenalty r

/-- The `issues` list of `analyze_security`, in emission order. -/
def sec_issues (resp : Option Resp) (ssl_ok : Bool) : List String :=
  (if ssl_ok then [] else ["Invalid SSL/TLS certificate."]) ++
  match resp with
  | some r =>
    (missingHeaders r).map (fun h => "Missing " ++ h ++ " header.") ++
    cookieIssues r
  | none => ["Could not fetch page for security analysis."]

structure SecResult where
  score : ℚ
  sslValid : Bool
  securityHeaders : List (String × Bool)
  phishingRisk : String
  issues : List String
  deriving DecidableEq, Repr

/-- `analyze_security` (app.py:75-108).  The `random.random() > 0.1` draw
for the phishing-risk stub is the explicit `phishingLow` parameter. -/
def analyze_security (resp : Option Resp) (ssl_ok : Bool) (phishingLow : Bool) :
    SecResult :=
  { score := max 0 (sec_raw_score resp ssl_ok),
    sslValid := ssl_ok,
    securityHeaders :=
      match resp with
      | some r => SECURITY_HEADERS.map (fun h => (h, hasHeader r.headers h))
      | none => [],
    phishingRisk := if phishingLow then "LOW RISK" else "HIGH RISK",
    issues := sec_issues resp ssl_ok }

/-! ## Performance analyzer (app.py:110-154) -/

/-- `size_kb = round(len(resp.content) / 1024, 2)` (app.py:116). -/
def size_kb (r : Resp) : ℚ := round2 ((r.contentLen : ℚ) / 1024)

/-- The running `score` variable of `analyze_performance` just before
`max(0, min(100, score))`, for a present response.  `lcp`, `fcp`, `cls`
are the synthetic Core-Web-Vitals values (already zeroed when the load
time is absent, see `analyze_performance`). -/
def perf_raw_score (r : Resp) (load_time : Option ℚ) (lcp fcp cls : ℚ) : ℚ :=
  100 - (if lcp > 2.5 then 20 else 0)
      - (if fcp > 1.8 then 15 else 0)
      - (if cls > 0.1 then 10 else 0)
      - (match load_time with
         | none => 20
         | some t => if t > 6 then 45 else if t > 4 then 30 else if t > 2 then 15 else 0)
      - (if size_kb r > 4096 then 30
         else if size_kb r > 2048 then 20
         else if size_kb r > 1024 then 10 else 0)

/-- The `issues` list of `analyze_performance`, in emission order. -/
def perf_issues (r : Resp) (load_time : Option ℚ) (lcp fcp cls : ℚ) : List String :=
  (if lcp > 2.5 then ["High Largest Contentful Paint (LCP) - Page rendering is slow."] else []) ++
  (if fcp > 1.8 then ["High First Contentful Paint (FCP) - Initial content took time to display."] else []) ++
  (if cls > 0.1 then ["High Cumulative Layout Shift (CLS) - Page layout is unstable."] else []) ++
  (match load_time with
   | none => ["Could not measure load time."]
   | some t =>
     if t > 6 then ["Very high load time " ++ qToStr t ++ "s."]
     else if t > 4 then ["High load time " ++ qToStr t ++ "s."]
     else if t > 2 then ["Moderate load time " ++ qToStr t ++ "s."]
     else []) ++
  (if size_kb r > 4096 then ["Page very large: " ++ qToStr (size_kb r) ++ " KB. Consider optimizing assets."]
   else if size_kb r > 2048 then ["Page large: " ++ qToStr (size_kb r) ++ " KB. Consider optimizing assets."]
   else if size_kb r > 1024 then ["Page medium: " ++ qToStr (size_kb r) ++ " KB. Could be optimized."]
   else [])

structure PerfMetrics where
  status_code : Nat
  load_time_s : Option ℚ
  page_size_kb : ℚ
  lcp : ℚ
  fcp : ℚ
  cls : ℚ
  deriving DecidableEq, Repr

structure PerfResult where
  /-- `none` models the empty metrics dict of the unreachable branch. -/
  metrics : Option PerfMetrics
  score : ℚ
  issues : List String
  deriving DecidableEq, Repr

/-- `analyze_performance` (app.py:110-154).  The `random.uniform` draws are
the explicit parameters `lcpDraw`/`fcpDraw` (used only when a load time is
available, else `lcp = fcp = 0`) and `clsDraw`. -/
def analyze_performance (resp : Option Resp) (load_time : Option ℚ)
    (lcpDraw fcpDraw clsDraw : ℚ) : PerfResult :=
  match resp with
  | none => { metrics := none, score := 0, issues := ["Site not reachable for performance test."] }
  | some r =>
    let lcp := match load_time with | some _ => lcpDraw | none => 0
    let fcp := match load_time with | some _ => fcpDraw | none => 0
    let cls := clsDraw
    { metrics := some
        { status_code := r.statusCode,
          load_time_s := load_time,
          page_size_kb := size_kb r,
          lcp := round2 lcp, fcp := round2 fcp, cls := round3 cls },
      score := max 0 (min 100 (perf_raw_score r load_time lcp fcp cls)),
      issues := perf_issues r load_time lcp fcp cls }

/-! ## SEO analyzer (app.py:156-218) -/

/-- `title_tag` (app.py:163): the stripped title string, when the title
tag exists and has a string. -/
def titleTag (d : Doc) : Option String := d.title.map (fun s => pyStrip s)

/-- Points from the title checks (app.py:164-168): `if title_tag:` is
Python truthiness, so an empty stripped title earns nothing. -/
def seo_title_points (d : Doc) : ℚ :=
  match titleTag d with
  | some t => if t ≠ "" then 20 + (if 10 ≤ t.length ∧ t.length ≤ 70 then 10 else 0) else 0
  | none => 0

/-- Points from the meta-description checks (app.py:170-177). -/
def seo_desc_points (d : Doc) : ℚ :=
  match d.metaDesc with
  | some md =>
    if md ≠ "" ∧ 0 < (pyStrip md).length then
      20 + (if 50 ≤ (pyStrip md).length ∧ (pyStrip md).length ≤ 160 then 10 else 0)
    else 0
  | none => 0

/-- Points from the heading check (app.py:179-182). -/
def seo_h1_points (d : Doc) : ℚ := if d.h1Count = 1 then 10 else 0

/-- Penalty when no Open Graph tag is present (app.py:185-189). -/
def seo_og_penalty (d : Doc) : ℚ := if d.ogTags = [] then 20 else 0

/-- The running `score` variable of `analyze_seo` just before
`max(0, min(100, score))`, for non-empty HTML.  The score is additive
from 0; the robots/sitemap probes never change it. -/
def seo_raw_score (d : Doc) : ℚ :=
  seo_title_points d + seo_desc_points d + seo_h1_points d - seo_og_penalty d

/-- The `issues` list of `analyze_seo`, in emission order.  `robots` and
`sitemap` are the observed probe outcomes (`none` = the HEAD request
raised, `some c` = it returned status `c`). -/
def seo_issues (d : Doc) (robots sitemap : Option Nat) : List String :=
  (match titleTag d with
   | some t =>
     if t ≠ "" then
       (if 10 ≤ t.length ∧ t.length ≤ 70 then []
        else ["Title length not optimal (10-70 characters recommended)."])
     else ["Missing <title> tag."]
   | none => ["Missing <title> tag."]) ++
  (match d.metaDesc with
   | some md =>
     if md ≠ "" ∧ 0 < (pyStrip md).length then
       (if 50 ≤ (pyStrip md).length ∧ (pyStrip md).length ≤ 160 then []
        else ["Meta description length not optimal (50-160 characters recommended)."])
     else ["Missing meta description."]
   | none => ["Missing meta description."]) ++
  (if d.h1Count = 1 then []
   else if d.h1Count > 1 then ["Multiple <h1> headings found. Use only one per page."]
   else ["Missing heading."]) ++
  (if d.ogTags = [] then ["Missing Open Graph tags. These are essential for social media sharing."] else []) ++
  (match robots with
   | some 200 => []
   | some _ => ["robots.txt file not found. This may impact search engine crawling."]
   | none => ["Could not check for robots.txt."]) ++
  (match sitemap with
   | some 200 => []
   | some _ => ["sitemap.xml file not found. This is recommended for SEO."]
   | none => ["Could not check for sitemap.xml."])

structure SeoResult where
  title : Option String
  meta_description : Option String
  h1_count : Nat
  og_tags : List (String × Option String)
  robots_txt_status : String
  sitemap_xml_status : String
  score : ℚ
  issues : List String
  deriving DecidableEq, Repr

/-- `analyze_seo` (app.py:156-218).  The parsed document stands for the
HTML text (`none` = empty text); the two probe outcomes are inputs. -/
def analyze_seo (doc : Option Doc) (url : String) (robots sitemap : Option Nat) :
    SeoResult :=
  match doc with
  | none =>
    { title := none, meta_description := none, h1_count := 0, og_tags := [],
      robots_txt_status := "Not Found", sitemap_xml_status := "Not Found",
      score := 0, issues := ["No HTML fetched for SEO."] }
  | some d =>
    { title := titleTag d,
      meta_description := d.metaDesc,
      h1_count := d.h1Count,
      og_tags := d.ogTags,
      robots_txt_status := if robots = some 200 then "Found" else "Not Found",
      sitemap_xml_status := if sitemap = some 200 then "Found" else "Not Found",
      score := max 0 (min 100 (seo_raw_score d)),
      issues := seo_issues d robots sitemap }

/-! ## Accessibility analyzer (app.py:220-247) -/

/-- `images_without_alt` (app.py:228): `img.get("alt")` falsy means the
attribute is absent or the empty string. -/
def imagesWithoutAlt (d : Doc) : List (Option String) :=
  d.imgAlts.filter (fun a => !truthy a)

/-- `empty_links` (app.py:242): no string, or string blank after strip. -/
def emptyLinks (d : Doc) : List (Option String) :=
  d.linkTexts.filter (fun t =>
    match t with
    | none => true
    | some s => pyStrip s == "")

/-- The running `score` variable of `analyze_accessibility` just before
`max(0, min(100, score))`, for non-empty HTML.  The image and link
deductions are proportional (float division in the source). -/
def acc_raw_score (d : Doc) : ℚ :=
  100 - (if d.imgAlts ≠ [] ∧ 0 < (imagesWithoutAlt d).length
         then ((imagesWithoutAlt d).length : ℚ) / (d.imgAlts.length : ℚ) * 30 else 0)
      - (if d.h1Count = 0 then 10 else 0)
      - (if truthy d.htmlLang then 0 else 10)
      - (if d.linkTexts ≠ [] ∧ 0 < (emptyLinks d).length
         then ((emptyLinks d).length : ℚ) / (d.linkTexts.length : ℚ) * 10 else 0)

/-- The `issues` list of `analyze_accessibility`, in emission order. -/
def acc_issues (d : Doc) : List String :=
  (if d.imgAlts ≠ [] ∧ 0 < (imagesWithoutAlt d).length
   then [toString (imagesWithoutAlt d).length ++ " images missing alt attributes."] else []) ++
  (if d.h1Count = 0 then ["Missing heading."] else []) ++
  (if truthy d.htmlLang then [] else ["Missing lang attribute on <html> tag."]) ++
  (if d.linkTexts ≠ [] ∧ 0 < (emptyLinks d).length
   then [toString (emptyLinks d).length ++ " links with no text."] else [])

structure AccResult where
  score : ℚ
  issues : List String
  deriving DecidableEq, Repr

/-- `analyze_accessibility` (app.py:220-247).  The `url` parameter is
unused, as in the source; no metrics are emitted. -/
def analyze_accessibility (doc : Option Doc) (url : String) : AccResult :=
  match doc with
  | none => { score := 0, issues := ["No HTML fetched for accessibility."] }
  | some d => { score := max 0 (min 100 (acc_raw_score d)), issues := acc_issues d }

/-! ## Aggregator and report (app.py:253-295) -/

/-- The weighted overall score (app.py:273-278). -/
def overall_score (sec perf seo acc : ℚ) : ℤ :=
  pyRound (sec * WEIGHTS_security + perf * WEIGHTS_performance
    + seo * WEIGHTS_seo + acc * WEIGHTS_accessibility)

/-- The critical-issue test (app.py:282): substring match for
`Missing`, `Invalid` or `High`. -/
def is_critical (i : String) : Bool :=
  strContains i "Missing" || strContains i "Invalid" || strContains i "High"

/-- `critical_issues` (app.py:282). -/
def critical_count (issues : List String) : Nat :=
  (issues.filter is_critical).length

/-- `minor_issues` (app.py:283). -/
def minor_count (issues : List String) : Nat :=
  issues.length - critical_count issues

/-- The captured artifacts one audit runs on: the fetched response (the
endpoint aborts with a 500 before the analyzers when the fetch failed,
app.py:265-266), its elapsed time, the TLS probe outcome, the normalized
URL, and the two SEO probe outcomes. -/
structure AuditInput where
  resp : Resp
  load_time : Option ℚ
  ssl_ok : Bool
  ssl_err : Option String
  url : String
  robots : Option Nat
  sitemap : Option Nat
  deriving DecidableEq, Repr

/-- The random draws one audit consumes (`random.random` for the phishing
stub, `random.uniform` for LCP/FCP/CLS). -/
structure Draws where
  phishingLow : Bool
  lcpDraw : ℚ
  fcpDraw : ℚ
  clsDraw : ℚ
  deriving DecidableEq, Repr

/-- The JSON report of a successful audit (app.py:285-295). -/
structure Report where
  timestamp : String
  url : String
  status : String
  overallScore : ℤ
  grade : String
  security : SecResult
  ssl_error : Option String
  performance : PerfResult
  seo : SeoResult
  accessibility : AccResult
  critical : Nat
  minor : Nat
  deriving DecidableEq, Repr

/-- `issues_combined` (app.py:281). -/
def report_issues (inp : AuditInput) (d : Draws) : List String :=
  (analyze_security (some inp.resp) inp.ssl_ok d.phishingLow).issues ++
  (analyze_performance (some inp.resp) inp.load_time d.lcpDraw d.fcpDraw d.clsDraw).issues ++
  (analyze_seo inp.resp.doc inp.url inp.robots inp.sitemap).issues ++
  (analyze_accessibility inp.resp.doc inp.url).issues

/-- The analyzer fan-out and aggregation of `audit` (app.py:268-295) on
captured artifacts, with the timestamp supplied by the caller. -/
def buildReport (timestamp : String) (inp : AuditInput) (d : Draws) : Report :=
  let sec := analyze_security (some inp.resp) inp.ssl_ok d.phishingLow
  let perf := analyze_performance (some inp.resp) inp.load_time d.lcpDraw d.fcpDraw d.clsDraw
  let seo := analyze_seo inp.resp.doc inp.url inp.robots inp.sitemap
  let acc := analyze_accessibility inp.resp.doc inp.url
  let overall := overall_score sec.score perf.score seo.score acc.score
  { timestamp := timestamp,
    url := inp.url,
    status := "success",
    overallScore := overall,
    grade := letter_grade overall,
    security := sec,
    ssl_error := inp.ssl_err,
    performance := perf,
    seo := seo,
    accessibility := acc,
    critical := critical_count (report_issues inp d),
    minor := minor_count (report_issues inp d) }

/-- A report with its timestamp field blanked, for comparing two runs
"except for the timestamp field". -/
def erase_timestamp (r : Report) : Report := { r with timestamp := "" }

/-- A rational that is the value of an integer (a Python `int`). -/
def IsIntQ (q : ℚ) : Prop := ∃ n : ℤ, q = (n : ℚ)

/-- Condition under which the `Set-Cookie` checks (app.py:89-98) deduct
nothing: the header is absent or empty, or the cookie carries both the
`secure` and the `httponly` attribute (case-insensitively). -/
def cookie_ok (r : Resp) : Bool :=
  match headerGet r.headers "Set-Cookie" with
  | none => true
  | some c =>
    c == "" || (strContains (pyLower c) "secure" && strContains (pyLower c) "httponly")

/-! ## Concrete fixtures used by witnesses and counterexamples -/

/-- A response carrying all six security headers and nothing else. -/
def allHeadersResp : Resp :=
  { headers := SECURITY_HEADERS.map (fun h => (h, "x")),
    contentLen := 0, statusCode := 200, doc := none }

/-- A response carrying all six security headers plus a `Set-Cookie`
header without `Secure`/`HttpOnly` attributes. -/
def allHeadersCookieResp : Resp :=
  { headers := SECURITY_HEADERS.map (fun h => (h, "x")) ++ [("Set-Cookie", "sessionid=abc")],
    contentLen := 0, statusCode := 200, doc := none }

/-- A 500 KB response (512000 bytes) with no interesting markup. -/
def perfResp : Resp :=
  { headers := [], contentLen := 512000, statusCode := 200, doc := none }

/-- A page with four images, one of which (the `none`) has no `alt`
attribute, and nothing else to deduct for. -/
def accDoc : Doc :=
  { title := none, metaDesc := none, h1Count := 1, ogTags := [],
    imgAlts := [some "a", none, some "b", some "c"], linkTexts := [],
    htmlLang := some "en" }

/-- A page earning every SEO point: 40-character title, 100-character
meta description, exactly one h1, an Open Graph tag. -/
def perfectSeoDoc : Doc :=
  { title := some "A Great Example Page Title Of Forty Chars",
    metaDesc := some "This meta description is long enough to fall inside the recommended fifty to one hundred sixty char",
    h1Count := 1, ogTags := [("og:title", some "x")], imgAlts := [],
    linkTexts := [], htmlLang := some "en" }

/-- Captured artifacts for the determinism counterexample: successful
fetch, 3-second load time. -/
def detInput : AuditInput :=
  { resp := { headers := [], contentLen := 1024, statusCode := 200, doc := none },
    load_time := some 3, ssl_ok := true, ssl_err := some "Valid",
    url := "https://example.com", robots := some 200, sitemap := some 200 }

/-- One possible outcome of the random draws for a 3-second load time
(LCP uniform on [2.4, 3.6], FCP on [1.2, 2.4], CLS on [0, 0.25]). -/
def detDrawsA : Draws :=
  { phishingLow := true, lcpDraw := 2.4, fcpDraw := 1.5, clsDraw := 0.05 }

/-- Another possible outcome of the same draws. -/
def detDrawsB : Draws :=
  { phishingLow := true, lcpDraw := 2.6, fcpDraw := 1.5, clsDraw := 0.05 }

/-! ## Shared helper lemmas -/

theorem cookiePenalty_nonneg (r : Resp) : 0 ≤ cookiePenalty r := by
  unfold cookiePenalty
  rcases headerGet r.headers "Set-Cookie" with _ | c
  · norm_num
  · dsimp only
    split_ifs <;> norm_num

theorem sec_raw_score_le (resp : Option Resp) (ssl_ok : Bool) :
    sec_raw_score resp ssl_ok ≤ 100 := by
  rcases resp with _ | r
  · norm_num [sec_raw_score]
  · have h1 : (0:ℚ) ≤ (if ssl_ok then 0 else 40) := by split_ifs <;> norm_num
    have h2 : (0:ℚ) ≤ ((missingHeaders r).length : ℚ) * 10 := by positivity
    have h3 := cookiePenalty_nonneg r
    simp only [sec_raw_score]
    linarith

theorem clamp_mem (q : ℚ) : 0 ≤ max 0 (min 100 q) ∧ max 0 (min 100 q) ≤ 100 :=
  ⟨le_max_left _ _, max_le (by norm_num) (min_le_left _ _)⟩

/-! ## Claim theorems -/

/-- C1: for every input — any fetch response or none, any TLS validity
flag, any markup or none, any random draws — each of the four analyzers
returns a score within [0, 100]. -/
theorem analyzer_scores_within_range
    (resp : Option Resp) (ssl_ok phishingLow : Bool)
    (load_time : Option ℚ) (lcpDraw fcpDraw clsDraw : ℚ)
    (doc : Option Doc) (url : String) (robots sitemap : Option Nat) :
    (0 ≤ (analyze_security resp ssl_ok phishingLow).score ∧
       (analyze_security resp ssl_ok phishingLow).score ≤ 100) ∧
    (0 ≤ (analyze_performance resp load_time lcpDraw fcpDraw clsDraw).score ∧
       (analyze_performance resp load_time lcpDraw fcpDraw clsDraw).score ≤ 100) ∧
    (0 ≤ (analyze_seo doc url robots sitemap).score ∧
       (analyze_seo doc url robots sitemap).score ≤ 100) ∧
    (0 ≤ (analyze_accessibility doc url).score ∧
       (analyze_accessibility doc url).score ≤ 100) := by
  refine ⟨⟨le_max_left _ _, max_le (by norm_num) (sec_raw_score_le resp ssl_ok)⟩, ?_, ?_, ?_⟩
  · rcases resp with _ | r
    · constructor <;> norm_num [analyze_performance]
    · exact clamp_mem _
  · rcases doc with _ | d
    · constructor <;> norm_num [analyze_seo]
    · exact clamp_mem _
  · rcases doc with _ | d
    · constructor <;> norm_num [analyze_accessibility]
    · exact clamp_mem _

/-- C2: the overall score is the banker's rounding of the weighted sum
`security*0.35 + performance*0.30 + seo*0.25 + accessibility*0.10`, and
the letter grade is exactly the threshold table ≥90 A+, ≥80 A, ≥70 B,
≥60 C, ≥50 D, else F. -/
theorem overall_formula_and_grade_thresholds :
    (∀ s p e a : ℚ, overall_score s p e a =
       pyRound (s * 0.35 + p * 0.30 + e * 0.25 + a * 0.10)) ∧
    ∀ n : ℤ,
      ((letter_grade n = "A+") ↔ 90 ≤ n) ∧
      ((letter_grade n = "A") ↔ 80 ≤ n ∧ n < 90) ∧
      ((letter_grade n = "B") ↔ 70 ≤ n ∧ n < 80) ∧
      ((letter_grade n = "C") ↔ 60 ≤ n ∧ n < 70) ∧
      ((letter_grade n = "D") ↔ 50 ≤ n ∧ n < 60) ∧
      ((letter_grade n = "F") ↔ n < 50) := by
  constructor
  · intro s p e a; rfl
  · intro n
    unfold letter_grade
    split_ifs <;> refine ⟨?_, ?_, ?_, ?_, ?_, ?_⟩ <;> simp_all <;> omega

theorem cookie_clean_of_cookie_ok (r : Resp) (hcookie : cookie_ok r = true) :
    cookiePenalty r = 0 ∧ cookieIssues r = [] := by
  unfold cookie_ok at hcookie
  unfold cookiePenalty cookieIssues
  rcases hg : headerGet r.headers "Set-Cookie" with _ | c
  · exact ⟨rfl, rfl⟩
  · rw [hg] at hcookie
    dsimp only at hcookie ⊢
    simp only [Bool.or_eq_true, Bool.and_eq_true, beq_iff_eq] at hcookie
    rcases hcookie with hc | ⟨h1, h2⟩
    · subst hc
      simp
    · simp [h1, h2]

theorem missingHeaders_eq_nil (r : Resp)
    (hall : SECURITY_HEADERS.all (fun h => hasHeader r.headers h) = true) :
    missingHeaders r = [] := by
  unfold missingHeaders
  rw [List.filter_eq_nil_iff]
  intro h hmem
  have := List.all_eq_true.mp hall h hmem
  simp [this]

/-- C3 (amended): if the fetch succeeded, the TLS probe reported invalid,
the response contains all six required security headers, and its
`Set-Cookie` header (if present and non-empty) carries both the `secure`
and `httponly` attributes, then `analyze_security` scores 60 with the
invalid-certificate issue as its only issue. -/
theorem sec_tls_invalid_all_headers
    (r : Resp) (phishingLow : Bool)
    (hall : SECURITY_HEADERS.all (fun h => hasHeader r.headers h) = true)
    (hcookie : cookie_ok r = true) :
    (analyze_security (some r) false phishingLow).score = 60 ∧
    (analyze_security (some r) false phishingLow).issues =
      ["Invalid SSL/TLS certificate."] := by
  obtain ⟨hpen, hiss⟩ := cookie_clean_of_cookie_ok r hcookie
  have hmiss := missingHeaders_eq_nil r hall
  constructor
  · show max 0 (sec_raw_score (some r) false) = 60
    simp only [sec_raw_score, hmiss, hpen]
    norm_num
  · show sec_issues (some r) false = _
    simp [sec_issues, hmiss, hiss]

theorem sec_tls_invalid_all_headers_witness :
    (SECURITY_HEADERS.all (fun h => hasHeader allHeadersResp.headers h) = true) ∧
    (cookie_ok allHeadersResp = true) ∧
    ((analyze_security (some allHeadersResp) false true).score = 60 ∧
     (analyze_security (some allHeadersResp) false true).issues =
       ["Invalid SSL/TLS certificate."]) :=
  ⟨by decide, by decide,
   sec_tls_invalid_all_headers allHeadersResp true (by decide) (by decide)⟩

/-- C3 counterexample: a response with all six security headers and a
`Set-Cookie` without `secure`/`httponly` refutes the claim as stated —
the score drops to 40 and three issues are emitted, not one. -/
theorem sec_cookie_flags_break_claim :
    (SECURITY_HEADERS.all (fun h => hasHeader allHeadersCookieResp.headers h) = true) ∧
    ¬ ((analyze_security (some allHeadersCookieResp) false true).score = 60 ∧
       (analyze_security (some allHeadersCookieResp) false true).issues.length = 1) ∧
    (analyze_security (some allHeadersCookieResp) false true).score = 40 ∧
    (analyze_security (some allHeadersCookieResp) false true).issues =
      ["Invalid SSL/TLS certificate.", "Cookies missing Secure flag.",
       "Cookies missing HttpOnly flag."] := by
  have hsc : headerGet allHeadersCookieResp.headers "Set-Cookie" = some "sessionid=abc" := by
    decide
  have hmiss : missingHeaders allHeadersCookieResp = [] := by decide
  have hpen : cookiePenalty allHeadersCookieResp = 20 := by
    rw [cookiePenalty, hsc]
    simp +decide
    norm_num
  have hscore : (analyze_security (some allHeadersCookieResp) false true).score = 40 := by
    show max 0 (sec_raw_score (some allHeadersCookieResp) false) = 40
    simp only [sec_raw_score, hmiss, hpen]
    norm_num
  refine ⟨by decide, ?_, hscore, by decide⟩
  intro h
  have h40 := hscore.symm.trans h.1
  norm_num at h40

/-- C4: when the fetch result is absent, `analyze_security` returns
score 0 for either TLS validity value, and the fetch-failure entry
occurs exactly once in its issue list. -/
theorem sec_null_fetch_score_zero (ssl_ok phishingLow : Bool) :
    (analyze_security none ssl_ok phishingLow).score = 0 ∧
    ((analyze_security none ssl_ok phishingLow).issues.count
       "Could not fetch page for security analysis.") = 1 := by
  cases ssl_ok <;> cases phishingLow <;>
    exact ⟨by norm_num [analyze_security, sec_raw_score], by decide⟩

theorem qToStr_seven : qToStr (7:ℚ) = "7.0" := by
  norm_num [qToStr]
  rw [show Int.toNat 7 = 7 from rfl]
  norm_num
  rfl

/-- C5: with a successful fetch of a 500 KB body (512000 bytes), elapsed
time 7.0 s, and the synthetic rendering metrics within healthy bounds
(LCP ≤ 2.5, FCP ≤ 1.8, CLS ≤ 0.1), the performance score is 55 — only
the >6 s penalty of 45 applies — and an issue string contains "7.0". -/
theorem perf_seven_seconds_500kb
    (r : Resp) (lcpDraw fcpDraw clsDraw : ℚ)
    (hsize : r.contentLen = 512000)
    (hlcp : lcpDraw ≤ 2.5) (hfcp : fcpDraw ≤ 1.8) (hcls : clsDraw ≤ 0.1) :
    (analyze_performance (some r) (some 7) lcpDraw fcpDraw clsDraw).score = 55 ∧
    ((analyze_performance (some r) (some 7) lcpDraw fcpDraw clsDraw).issues.any
       (fun s => strContains s "7.0")) = true := by
  have hkb : size_kb r = 500 := by norm_num [size_kb, hsize, round2, pyRound]
  have h1 : ¬ (lcpDraw > 2.5) := not_lt.mpr hlcp
  have h2 : ¬ (fcpDraw > 1.8) := not_lt.mpr hfcp
  have h3 : ¬ (clsDraw > 0.1) := not_lt.mpr hcls
  constructor
  · show max 0 (min 100 (perf_raw_score r (some 7) lcpDraw fcpDraw clsDraw)) = 55
    have hraw : perf_raw_score r (some 7) lcpDraw fcpDraw clsDraw = 55 := by
      simp only [perf_raw_score, hkb]
      rw [if_neg h1, if_neg h2, if_neg h3]
      norm_num
    rw [hraw, min_eq_right (by norm_num), max_eq_right (by norm_num)]
  · show (perf_issues r (some 7) lcpDraw fcpDraw clsDraw).any
       (fun s => strContains s "7.0") = true
    simp only [perf_issues, hkb, qToStr_seven]
    rw [if_neg h1, if_neg h2, if_neg h3]
    norm_num
    decide

theorem perf_seven_seconds_500kb_witness :
    perfResp.contentLen = 512000 ∧ (1:ℚ) ≤ 2.5 ∧ (1:ℚ) ≤ 1.8 ∧ (0:ℚ) ≤ 0.1 ∧
    ((analyze_performance (some perfResp) (some 7) 1 1 0).score = 55 ∧
     ((analyze_performance (some perfResp) (some 7) 1 1 0).issues.any
        (fun s => strContains s "7.0")) = true) :=
  ⟨rfl, by norm_num, by norm_num, by norm_num,
   perf_seven_seconds_500kb perfResp 1 1 0 rfl (by norm_num) (by norm_num) (by norm_num)⟩

/-- C6: an issue of a report is counted as critical precisely when it
contains "Missing", "Invalid" or "High" as a case-sensitive substring,
and the minor count is the total issue count minus the critical count. -/
theorem issue_classification (t : String) (inp : AuditInput) (d : Draws) :
    ((buildReport t inp d).critical =
       ((report_issues inp d).filter is_critical).length) ∧
    ((buildReport t inp d).minor =
       (report_issues inp d).length - (buildReport t inp d).critical) ∧
    ∀ i : String, is_critical i = true ↔
      ((∃ a b, a ++ "Missing".data ++ b = i.data) ∨
       (∃ a b, a ++ "Invalid".data ++ b = i.data) ∨
       (∃ a b, a ++ "High".data ++ b = i.data)) := by
  refine ⟨rfl, rfl, fun i => ?_⟩
  simp only [is_critical, strContains, Bool.or_eq_true, decide_eq_true_eq]
  rw [or_assoc]
  exact Iff.rfl

/-- C7: the code evaluated at the failing input — normalizing the empty
URL yields "https://", a non-empty string, so the `if not url` guard of
the audit endpoint (app.py:258) never fires and the audit proceeds to
the TLS probe and fetch instead of rejecting the request. -/
theorem normalize_url_empty_not_rejected :
    normalize_url "" = "https://" ∧ (normalize_url "").isEmpty = false := by
  decide

/-- C8 (amended): with the random draws fixed along with the captured
fetch/probe artifacts, the pipeline is deterministic and the timestamp
influences nothing but the timestamp field: reports built from the same
artifacts and draws at different timestamps agree once the timestamp is
blanked. -/
theorem report_determined_by_inputs_and_draws
    (t₁ t₂ : String) (inp : AuditInput) (d : Draws) :
    erase_timestamp (buildReport t₁ inp d) = erase_timestamp (buildReport t₂ inp d) := rfl

/-- C8 counterexample: two runs over the same captured artifacts, same
timestamp, but different internal random draws (both inside the uniform
ranges the code samples for a 3-second load time) give reports that
differ beyond the timestamp — the performance scores are 85 and 65. -/
theorem report_random_draws_counterexample :
    (buildReport "2024-01-01T00:00:00" detInput detDrawsA).timestamp =
      (buildReport "2024-01-01T00:00:00" detInput detDrawsB).timestamp ∧
    (buildReport "2024-01-01T00:00:00" detInput detDrawsA).performance.score = 85 ∧
    (buildReport "2024-01-01T00:00:00" detInput detDrawsB).performance.score = 65 ∧
    buildReport "2024-01-01T00:00:00" detInput detDrawsA ≠
      buildReport "2024-01-01T00:00:00" detInput detDrawsB := by
  have hkb : size_kb detInput.resp = 1 := by
    norm_num [size_kb, detInput, round2, pyRound]
  have hA : (buildReport "2024-01-01T00:00:00" detInput detDrawsA).performance.score = 85 := by
    show max 0 (min 100 (perf_raw_score detInput.resp (some 3) 2.4 1.5 0.05)) = 85
    have hraw : perf_raw_score detInput.resp (some 3) 2.4 1.5 0.05 = 85 := by
      simp only [perf_raw_score, hkb]
      norm_num
    rw [hraw, min_eq_right (by norm_num), max_eq_right (by norm_num)]
  have hB : (buildReport "2024-01-01T00:00:00" detInput detDrawsB).performance.score = 65 := by
    show max 0 (min 100 (perf_raw_score detInput.resp (some 3) 2.6 1.5 0.05)) = 65
    have hraw : perf_raw_score detInput.resp (some 3) 2.6 1.5 0.05 = 65 := by
      simp only [perf_raw_score, hkb]
      norm_num
    rw [hraw, min_eq_right (by norm_num), max_eq_right (by norm_num)]
  refine ⟨rfl, hA, hB, fun h => ?_⟩
  have hps := congrArg (fun rep => rep.performance.score) h
  simp only at hps
  rw [hA, hB] at hps
  norm_num at hps

theorem isIntQ_add {a b : ℚ} (ha : IsIntQ a) (hb : IsIntQ b) : IsIntQ (a + b) := by
  obtain ⟨m, rfl⟩ := ha
  obtain ⟨n, rfl⟩ := hb
  exact ⟨m + n, by push_cast; ring⟩

theorem isIntQ_sub {a b : ℚ} (ha : IsIntQ a) (hb : IsIntQ b) : IsIntQ (a - b) := by
  obtain ⟨m, rfl⟩ := ha
  obtain ⟨n, rfl⟩ := hb
  exact ⟨m - n, by push_cast; ring⟩

theorem isIntQ_mul {a b : ℚ} (ha : IsIntQ a) (hb : IsIntQ b) : IsIntQ (a * b) := by
  obtain ⟨m, rfl⟩ := ha
  obtain ⟨n, rfl⟩ := hb
  exact ⟨m * n, by push_cast; ring⟩

theorem isIntQ_natCast (n : ℕ) : IsIntQ (n : ℚ) :=
  ⟨n, by push_cast; ring⟩

theorem isIntQ_ite (c : Prop) [Decidable c] {a b : ℚ}
    (ha : IsIntQ a) (hb : IsIntQ b) : IsIntQ (if c then a else b) := by
  split <;> assumption

theorem isIntQ_max {a b : ℚ} (ha : IsIntQ a) (hb : IsIntQ b) : IsIntQ (max a b) := by
  obtain ⟨m, rfl⟩ := ha
  obtain ⟨n, rfl⟩ := hb
  exact ⟨max m n, (Int.cast_mono.map_max).symm⟩

theorem isIntQ_min {a b : ℚ} (ha : IsIntQ a) (hb : IsIntQ b) : IsIntQ (min a b) := by
  obtain ⟨m, rfl⟩ := ha
  obtain ⟨n, rfl⟩ := hb
  exact ⟨min m n, (Int.cast_mono.map_min).symm⟩

theorem sec_raw_score_int (resp : Option Resp) (ssl_ok : Bool) :
    IsIntQ (sec_raw_score resp ssl_ok) := by
  rcases resp with _ | r
  · exact ⟨0, by norm_num [sec_raw_score]⟩
  · simp only [sec_raw_score]
    refine isIntQ_sub (isIntQ_sub (isIntQ_sub ⟨100, by norm_num⟩
      (isIntQ_ite _ ⟨0, by norm_num⟩ ⟨40, by norm_num⟩))
      (isIntQ_mul (isIntQ_natCast _) ⟨10, by norm_num⟩)) ?_
    unfold cookiePenalty
    rcases headerGet r.headers "Set-Cookie" with _ | c
    · exact ⟨0, by norm_num⟩
    · dsimp only
      exact isIntQ_ite _
        (isIntQ_add (isIntQ_ite _ ⟨0, by norm_num⟩ ⟨10, by norm_num⟩)
          (isIntQ_ite _ ⟨0, by norm_num⟩ ⟨10, by norm_num⟩))
        ⟨0, by norm_num⟩

theorem perf_raw_score_int (r : Resp) (lt : Option ℚ) (lcp fcp cls : ℚ) :
    IsIntQ (perf_raw_score r lt lcp fcp cls) := by
  simp only [perf_raw_score]
  refine isIntQ_sub (isIntQ_sub (isIntQ_sub (isIntQ_sub (isIntQ_sub ⟨100, by norm_num⟩
    (isIntQ_ite _ ⟨20, by norm_num⟩ ⟨0, by norm_num⟩))
    (isIntQ_ite _ ⟨15, by norm_num⟩ ⟨0, by norm_num⟩))
    (isIntQ_ite _ ⟨10, by norm_num⟩ ⟨0, by norm_num⟩)) ?_)
    (isIntQ_ite _ ⟨30, by norm_num⟩ (isIntQ_ite _ ⟨20, by norm_num⟩
      (isIntQ_ite _ ⟨10, by norm_num⟩ ⟨0, by norm_num⟩)))
  rcases lt with _ | t
  · exact ⟨20, by norm_num⟩
  · dsimp only
    exact isIntQ_ite _ ⟨45, by norm_num⟩ (isIntQ_ite _ ⟨30, by norm_num⟩
      (isIntQ_ite _ ⟨15, by norm_num⟩ ⟨0, by norm_num⟩))

theorem seo_raw_score_int (d : Doc) : IsIntQ (seo_raw_score d) := by
  unfold seo_raw_score
  refine isIntQ_sub (isIntQ_add (isIntQ_add ?_ ?_) ?_) ?_
  · unfold seo_title_points
    rcases titleTag d with _ | t
    · exact ⟨0, by norm_num⟩
    · dsimp only
      exact isIntQ_ite _
        (isIntQ_add ⟨20, by norm_num⟩ (isIntQ_ite _ ⟨10, by norm_num⟩ ⟨0, by norm_num⟩))
        ⟨0, by norm_num⟩
  · unfold seo_desc_points
    rcases d.metaDesc with _ | md
    · exact ⟨0, by norm_num⟩
    · dsimp only
      exact isIntQ_ite _
        (isIntQ_add ⟨20, by norm_num⟩ (isIntQ_ite _ ⟨10, by norm_num⟩ ⟨0, by norm_num⟩))
        ⟨0, by norm_num⟩
  · exact isIntQ_ite _ ⟨10, by norm_num⟩ ⟨0, by norm_num⟩
  · exact isIntQ_ite _ ⟨20, by norm_num⟩ ⟨0, by norm_num⟩

/-- C9 (amended): the security, performance and SEO analyzers return
integer scores for every input; the accessibility analyzer's
proportional deductions can produce a non-integer score (see the
counterexample at 1 of 4 images missing `alt`). -/
theorem sec_perf_seo_scores_are_integers
    (resp : Option Resp) (ssl_ok phishingLow : Bool)
    (load_time : Option ℚ) (lcpDraw fcpDraw clsDraw : ℚ)
    (doc : Option Doc) (url : String) (robots sitemap : Option Nat) :
    IsIntQ (analyze_security resp ssl_ok phishingLow).score ∧
    IsIntQ (analyze_performance resp load_time lcpDraw fcpDraw clsDraw).score ∧
    IsIntQ (analyze_seo doc url robots sitemap).score := by
  refine ⟨isIntQ_max ⟨0, by norm_num⟩ (sec_raw_score_int resp ssl_ok), ?_, ?_⟩
  · rcases resp with _ | r
    · exact ⟨0, by norm_num [analyze_performance]⟩
    · exact isIntQ_max ⟨0, by norm_num⟩
        (isIntQ_min ⟨100, by norm_num⟩ (perf_raw_score_int r load_time _ _ _))
  · rcases doc with _ | d
    · exact ⟨0, by norm_num [analyze_seo]⟩
    · exact isIntQ_max ⟨0, by norm_num⟩
        (isIntQ_min ⟨100, by norm_num⟩ (seo_raw_score_int d))

/-- C9 counterexample: with four images of which one lacks an `alt`
attribute, the accessibility score is 100 − (1/4)·30 = 92.5 — not an
integer. -/
theorem acc_score_not_integer :
    (analyze_accessibility (some accDoc) "https://example.com").score = 185/2 ∧
    ¬ IsIntQ (analyze_accessibility (some accDoc) "https://example.com").score := by
  have hs : (analyze_accessibility (some accDoc) "https://example.com").score = 185/2 := by
    simp +decide [analyze_accessibility, acc_raw_score, accDoc, imagesWithoutAlt,
      emptyLinks, truthy]
    norm_num
  refine ⟨hs, ?_⟩
  rw [IsIntQ, hs]
  rintro ⟨n, hn⟩
  have h2 : (185:ℚ) = 2 * (n:ℚ) := by linarith
  have h3 : (185:ℤ) = 2 * n := by exact_mod_cast h2
  omega

/-- C10: the SEO score never exceeds 70 for any input — the additive
algorithm awards at most 30 (title) + 30 (description) + 10 (heading)
and the Open Graph / robots / sitemap checks never add points — and a
page passing every check earns exactly 70. -/
theorem seo_score_at_most_70 :
    (∀ (doc : Option Doc) (url : String) (robots sitemap : Option Nat),
       (analyze_seo doc url robots sitemap).score ≤ 70) ∧
    (analyze_seo (some perfectSeoDoc) "https://example.com" (some 200) (some 200)).score
      = 70 := by
  constructor
  · intro doc url robots sitemap
    rcases doc with _ | d
    · norm_num [analyze_seo]
    · show max 0 (min 100 (seo_raw_score d)) ≤ 70
      have ht : seo_title_points d ≤ 30 := by
        unfold seo_title_points
        rcases titleTag d with _ | t
        · norm_num
        · dsimp only
          split_ifs <;> norm_num
      have hd : seo_desc_points d ≤ 30 := by
        unfold seo_desc_points
        rcases d.metaDesc with _ | md
        · norm_num
        · dsimp only
          split_ifs <;> norm_num
      have hh : seo_h1_points d ≤ 10 := by
        unfold seo_h1_points
        split_ifs <;> norm_num
      have hg : 0 ≤ seo_og_penalty d := by
        unfold seo_og_penalty
        split_ifs <;> norm_num
      have hraw : seo_raw_score d ≤ 70 := by
        unfold seo_raw_score
        linarith
      exact max_le (by norm_num) (le_trans (min_le_right _ _) hraw)
  · have hc : seo_raw_score perfectSeoDoc = 70 := by
      simp +decide [seo_raw_score, seo_title_points, seo_desc_points, seo_h1_points,
        seo_og_penalty, perfectSeoDoc, titleTag]
      norm_num
    show max 0 (min 100 (seo_raw_score perfectSeoDoc)) = 70
    rw [hc, min_eq_right (by norm_num), max_eq_right (by norm_num)]

end WebPulse
